import Mathlib

/-!
Shallow embedding of `Platform::Ranges::Range<T>`
(src/cpp/Platform.Ranges/Range[T].cpp).

The type is a closed interval with bounds `Minimum`, `Maximum`, a
precondition-checked two-value constructor, containment queries,
structural equality, a hash, tuple conversions and `ToString`.
The generic parameter `T` is embedded as a type with a `LinearOrder`
(the source requires `<=`, `>=`, `==` on `T`).
-/

namespace PlatformRanges

/-- The error kind raised by the precondition helper. -/
inductive ArgumentErrorKind where
  | InvalidArgument
deriving DecidableEq, Repr

/-- A structured argument error: its kind and the offending parameter name. -/
structure ArgumentError where
  kind : ArgumentErrorKind
  paramName : String
deriving DecidableEq, Repr

/-- `Platform::Exceptions::Ensure` mode; the constructor passes `Always`. -/
inductive EnsureMode where
  | Always
deriving DecidableEq, Repr

/-- Modelled from the spec: the source of
`Platform::Ranges::EnsureExtensions::MaximumArgumentIsGreaterOrEqualToMinimum`
is not part of this repository snapshot (only its call site in the `Range`
constructor is).  Per the spec it raises an `InvalidArgument`-kind failure
carrying the parameter name when `maximum < minimum`, is a no-op otherwise,
and in `Ensure.Always` mode validates unconditionally in every build. -/
def EnsureExtensions.MaximumArgumentIsGreaterOrEqualToMinimum
    {T : Type} [LinearOrder T] (mode : EnsureMode) (minimum maximum : T)
    (paramName : String) : Except ArgumentError Unit :=
  match mode with
  | .Always =>
      if maximum < minimum then
        .error { kind := .InvalidArgument, paramName := paramName }
      else
        .ok ()

/-- `Range<T>`: the two fields `Minimum` and `Maximum`. -/
structure Range (T : Type) where
  Minimum : T
  Maximum : T
deriving DecidableEq, Repr

/-- Single-value constructor `Range(T minimumAndMaximum)`:
sets both fields to the given value, never fails. -/
def Range.ofValue {T : Type} (minimumAndMaximum : T) : Range T :=
  { Minimum := minimumAndMaximum, Maximum := minimumAndMaximum }

/-- Two-value constructor `Range(T minimum, T maximum)`: runs the
`Ensure.Always` precondition check with parameter name `"maximum"`, then
sets the fields. -/
def Range.ofMinMax {T : Type} [LinearOrder T] (minimum maximum : T) :
    Except ArgumentError (Range T) := do
  EnsureExtensions.MaximumArgumentIsGreaterOrEqualToMinimum
    EnsureMode.Always minimum maximum "maximum"
  pure { Minimum := minimum, Maximum := maximum }

/-- `bool Contains(T value) { return Minimum <= value && Maximum >= value; }` -/
def Range.Contains {T : Type} [LinearOrder T] (r : Range T) (value : T) : Bool :=
  decide (r.Minimum ≤ value) && decide (r.Maximum ≥ value)

/-- `bool Contains(Range<T> range)`: containment of both bounds,
defined in terms of the scalar `Contains`. -/
def Range.ContainsRange {T : Type} [LinearOrder T] (r : Range T)
    (range : Range T) : Bool :=
  r.Contains range.Minimum && r.Contains range.Maximum

/-- `bool Equals(Range<T> other)`: structural equality of both fields. -/
def Range.Equals {T : Type} [DecidableEq T] (r other : Range T) : Bool :=
  decide (r.Minimum = other.Minimum) && decide (r.Maximum = other.Maximum)

/-- `GetHashCode`: the hash of the tuple `{Minimum, Maximum}`. -/
def Range.GetHashCode {T : Type} [Hashable T] (r : Range T) : UInt64 :=
  hash (r.Minimum, r.Maximum)

/-- `operator std::tuple<T, T>(Range<T> range)`:
conversion to the ordered pair `(Minimum, Maximum)`. -/
def Range.toTuple {T : Type} (range : Range T) : T × T :=
  (range.Minimum, range.Maximum)

/-- `operator Range<T>(std::tuple<T, T> tuple)`: conversion from an ordered
pair, routed through the two-value constructor. -/
def Range.ofTuple {T : Type} [LinearOrder T] (tuple : T × T) :
    Except ArgumentError (Range T) :=
  Range.ofMinMax tuple.1 tuple.2

/-- `operator ==(Range<T> left, Range<T> right)`: delegates to `Equals`. -/
def Range.opEq {T : Type} [DecidableEq T] (left right : Range T) : Bool :=
  left.Equals right

/-- `operator !=(Range<T> left, Range<T> right)`: negation of `==`. -/
def Range.opNe {T : Type} [DecidableEq T] (left right : Range T) : Bool :=
  !(Range.opEq left right)

/-- `ToString`: `"[" + Minimum + ", " + Maximum + "]"` using the bound
values' natural display form. -/
def Range.toDisplayString {T : Type} [ToString T] (r : Range T) : String :=
  "[" ++ toString r.Minimum ++ ", " ++ toString r.Maximum ++ "]"

end PlatformRanges

namespace PlatformRanges

/-- Auxiliary unfolding of the two-value constructor. -/
theorem ofMinMax_eq {T : Type} [LinearOrder T] (lo hi : T) :
    Range.ofMinMax lo hi =
      (if hi < lo then
        Except.error { kind := .InvalidArgument, paramName := "maximum" }
      else Except.ok { Minimum := lo, Maximum := hi }) := by
  have hdo : Range.ofMinMax lo hi =
      Except.bind
        (if hi < lo then
          Except.error { kind := .InvalidArgument, paramName := "maximum" }
        else Except.ok ())
        (fun _ => Except.ok { Minimum := lo, Maximum := hi }) := rfl
  rw [hdo]
  by_cases h : hi < lo
  · rw [if_pos h, if_pos h]
    rfl
  · rw [if_neg h, if_neg h]
    rfl

/-- Shared lemma: the constructor's outcome, split on `lo ≤ hi`. -/
theorem ofMinMax_spec {T : Type} [LinearOrder T] (lo hi : T) :
    Range.ofMinMax lo hi =
      (if lo ≤ hi then Except.ok { Minimum := lo, Maximum := hi }
       else Except.error { kind := .InvalidArgument, paramName := "maximum" }) := by
  rw [ofMinMax_eq]
  rcases lt_or_le hi lo with h | h
  · rw [if_pos h, if_neg (not_le_of_lt h)]
  · rw [if_neg (not_lt_of_le h), if_pos h]

/-- C1: `Range(lo, hi)` succeeds with `Minimum = lo`, `Maximum = hi` exactly
when `lo ≤ hi`, and otherwise fails with an `InvalidArgument`-kind error
carrying the parameter name `"maximum"`; the check runs unconditionally
(the `Ensure.Always` mode is the one passed by the constructor). -/
theorem c1_two_value_constructor {T : Type} [LinearOrder T] (lo hi : T) :
    Range.ofMinMax lo hi =
      (if lo ≤ hi then Except.ok { Minimum := lo, Maximum := hi }
       else Except.error { kind := .InvalidArgument, paramName := "maximum" }) :=
  ofMinMax_spec lo hi

/-- C2: the invariant `Minimum ≤ Maximum` holds for every successfully
constructed range: any `Range` returned by the two-value constructor
satisfies it, and the single-value constructor always establishes it.
No operation of the type mutates the fields. -/
theorem c2_invariant {T : Type} [LinearOrder T] (lo hi v : T) (r : Range T)
    (h : Range.ofMinMax lo hi = Except.ok r) :
    r.Minimum ≤ r.Maximum ∧
    (Range.ofValue v).Minimum ≤ (Range.ofValue v).Maximum := by
  refine ⟨?_, le_refl v⟩
  rw [ofMinMax_eq] at h
  by_cases hlt : hi < lo
  · rw [if_pos hlt] at h
    exact absurd h (by simp)
  · rw [if_neg hlt] at h
    cases h
    exact le_of_not_lt hlt

/-- C2 witness: the invariant at the concrete range built from `(1, 5)`. -/
theorem c2_invariant_witness :
    (3 : Int) ≤ 7 ∧ (Range.ofValue (4 : Int)).Minimum ≤ (Range.ofValue (4 : Int)).Maximum := by
  have h := c2_invariant (3 : Int) 7 4 { Minimum := 3, Maximum := 7 }
    (by rw [ofMinMax_eq, if_neg (by norm_num)])
  exact ⟨h.1, h.2⟩

/-- C3: for a valid range `r`, the scalar query `Contains v` returns `true`
iff `Minimum ≤ v` and `v ≤ Maximum`; it is a pure Boolean function of the
fields. -/
theorem c3_contains_value {T : Type} [LinearOrder T] (r : Range T)
    (h : r.Minimum ≤ r.Maximum) (v : T) :
    r.Contains v = true ↔ (r.Minimum ≤ v ∧ v ≤ r.Maximum) := by
  unfold Range.Contains
  simp [ge_iff_le, and_comm]

/-- C3 witness at the concrete range `[1, 5]` and value `3`. -/
theorem c3_contains_value_witness :
    ({ Minimum := 1, Maximum := 5 } : Range Int).Contains 3 = true ↔
      ((1 : Int) ≤ 3 ∧ (3 : Int) ≤ 5) := by
  simpa using
    c3_contains_value ({ Minimum := 1, Maximum := 5 } : Range Int) (by decide) 3

/-- C4: for valid ranges, range containment is reflexive and
`a.Contains(b)` holds iff `a.Minimum ≤ b.Minimum` and
`b.Maximum ≤ a.Maximum`, inclusive of touching bounds. -/
theorem c4_contains_range {T : Type} [LinearOrder T] (a b : Range T)
    (ha : a.Minimum ≤ a.Maximum) (hb : b.Minimum ≤ b.Maximum) :
    a.ContainsRange a = true ∧
    (a.ContainsRange b = true ↔ (a.Minimum ≤ b.Minimum ∧ b.Maximum ≤ a.Maximum)) := by
  constructor
  · unfold Range.ContainsRange Range.Contains
    simp [ha, le_refl, ge_iff_le]
  · unfold Range.ContainsRange Range.Contains
    simp only [Bool.and_eq_true, decide_eq_true_eq, ge_iff_le]
    constructor
    · rintro ⟨⟨h1, _⟩, ⟨_, h4⟩⟩
      exact ⟨h1, h4⟩
    · rintro ⟨h1, h2⟩
      exact ⟨⟨h1, le_trans hb h2⟩, ⟨le_trans h1 hb, h2⟩⟩

/-- C4 witness at the concrete ranges `[10, 20]` and `[12, 18]`. -/
theorem c4_contains_range_witness :
    ({ Minimum := 10, Maximum := 20 } : Range Int).ContainsRange
        { Minimum := 10, Maximum := 20 } = true ∧
    (({ Minimum := 10, Maximum := 20 } : Range Int).ContainsRange
        { Minimum := 12, Maximum := 18 } = true ↔
      ((10 : Int) ≤ 12 ∧ (18 : Int) ≤ 20)) := by
  simpa using
    c4_contains_range ({ Minimum := 10, Maximum := 20 } : Range Int)
      { Minimum := 12, Maximum := 18 } (by decide) (by decide)

/-- C5: for valid ranges, `a == b` iff both fields match pairwise; equal
ranges have equal hash codes; and `!=` is exactly the negation of `==`. -/
theorem c5_equality {T : Type} [LinearOrder T] [Hashable T] (a b : Range T)
    (ha : a.Minimum ≤ a.Maximum) (hb : b.Minimum ≤ b.Maximum) :
    (Range.opEq a b = true ↔ (a.Minimum = b.Minimum ∧ a.Maximum = b.Maximum)) ∧
    (Range.opEq a b = true → a.GetHashCode = b.GetHashCode) ∧
    Range.opNe a b = !(Range.opEq a b) := by
  refine ⟨?_, ?_, rfl⟩
  · unfold Range.opEq Range.Equals
    simp
  · unfold Range.opEq Range.Equals Range.GetHashCode
    simp only [Bool.and_eq_true, decide_eq_true_eq]
    rintro ⟨h1, h2⟩
    rw [h1, h2]

/-- C5 witness at the concrete ranges `[5, 5]` and `[5, 5]`. -/
theorem c5_equality_witness :
    (Range.opEq ({ Minimum := 5, Maximum := 5 } : Range Int)
        { Minimum := 5, Maximum := 5 } = true ↔
      ((5 : Int) = 5 ∧ (5 : Int) = 5)) ∧
    (Range.opEq ({ Minimum := 5, Maximum := 5 } : Range Int)
        { Minimum := 5, Maximum := 5 } = true →
      Range.GetHashCode ({ Minimum := 5, Maximum := 5 } : Range Int) =
        Range.GetHashCode ({ Minimum := 5, Maximum := 5 } : Range Int)) ∧
    Range.opNe ({ Minimum := 5, Maximum := 5 } : Range Int)
        { Minimum := 5, Maximum := 5 } =
      !(Range.opEq { Minimum := 5, Maximum := 5 } { Minimum := 5, Maximum := 5 }) := by
  have h := c5_equality ({ Minimum := 5, Maximum := 5 } : Range Int)
    { Minimum := 5, Maximum := 5 } (by decide) (by decide)
  exact ⟨by simpa using h.1, h.2.1, h.2.2⟩

/-- C6: the single-value constructor always succeeds and sets both
`Minimum` and `Maximum` to the given value. -/
theorem c6_single_value_constructor {T : Type} (v : T) :
    (Range.ofValue v).Minimum = v ∧ (Range.ofValue v).Maximum = v :=
  ⟨rfl, rfl⟩

/-- C7: round-trip — for `lo ≤ hi`, `Range(lo, hi)` succeeds with the range
`⟨lo, hi⟩`, and converting that range to a pair and back yields an equal
range. -/
theorem c7_round_trip {T : Type} [LinearOrder T] (lo hi : T) (h : lo ≤ hi) :
    Range.ofMinMax lo hi = Except.ok { Minimum := lo, Maximum := hi } ∧
    Range.ofTuple (Range.toTuple { Minimum := lo, Maximum := hi }) =
      Except.ok ({ Minimum := lo, Maximum := hi } : Range T) ∧
    Range.Equals ({ Minimum := lo, Maximum := hi } : Range T)
      { Minimum := lo, Maximum := hi } = true := by
  have hc : Range.ofMinMax lo hi = Except.ok ({ Minimum := lo, Maximum := hi } : Range T) := by
    rw [ofMinMax_spec, if_pos h]
  refine ⟨hc, ?_, ?_⟩
  · unfold Range.ofTuple Range.toTuple
    exact hc
  · unfold Range.Equals
    simp

/-- C7 witness at the concrete bounds `lo = 1`, `hi = 5`. -/
theorem c7_round_trip_witness :
    Range.ofMinMax (1 : Int) 5 = Except.ok { Minimum := 1, Maximum := 5 } ∧
    Range.ofTuple (Range.toTuple ({ Minimum := 1, Maximum := 5 } : Range Int)) =
      Except.ok ({ Minimum := 1, Maximum := 5 } : Range Int) ∧
    Range.Equals ({ Minimum := 1, Maximum := 5 } : Range Int)
      { Minimum := 1, Maximum := 5 } = true :=
  c7_round_trip 1 5 (by decide)

/-- C8: pair-to-range conversion routes through the two-value constructor
with `first` as minimum and `second` as maximum: it fails with the same
`InvalidArgument` error when `first > second`, and on success the range has
`Minimum = first`, `Maximum = second`. -/
theorem c8_pair_conversion {T : Type} [LinearOrder T] (first second : T) :
    Range.ofTuple (first, second) = Range.ofMinMax first second ∧
    (second < first →
      Range.ofTuple (first, second) =
        Except.error { kind := .InvalidArgument, paramName := "maximum" }) ∧
    (first ≤ second →
      Range.ofTuple (first, second) =
        Except.ok { Minimum := first, Maximum := second }) := by
  refine ⟨rfl, ?_, ?_⟩
  · intro hlt
    unfold Range.ofTuple
    rw [ofMinMax_spec, if_neg (not_le_of_lt hlt)]
  · intro hle
    unfold Range.ofTuple
    rw [ofMinMax_spec, if_pos hle]

/-- C8 witness at the concrete pairs `(7, 2)` (failure) and `(2, 7)`
(success). -/
theorem c8_pair_conversion_witness :
    Range.ofTuple ((7 : Int), 2) =
      Except.error { kind := .InvalidArgument, paramName := "maximum" } ∧
    Range.ofTuple ((2 : Int), 7) = Except.ok { Minimum := 2, Maximum := 7 } :=
  ⟨(c8_pair_conversion (7 : Int) 2).2.1 (by decide),
   (c8_pair_conversion (2 : Int) 7).2.2 (by decide)⟩

/-- C9: `ToString` renders `"[Minimum, Maximum]"` with the natural display
form of each bound, the literal `", "` separator and enclosing square
brackets; in particular `[1, 5]` and `[3, 3]` at the spec's examples. -/
theorem c9_to_string :
    (∀ r : Range Int,
      r.toDisplayString =
        "[" ++ toString r.Minimum ++ ", " ++ toString r.Maximum ++ "]") ∧
    ({ Minimum := 1, Maximum := 5 } : Range Int).toDisplayString = "[1, 5]" ∧
    (Range.ofValue (3 : Int)).toDisplayString = "[3, 3]" :=
  ⟨fun _ => rfl, rfl, rfl⟩

/-- C10: reverse round-trip — for `first ≤ second`, converting the pair to a
range succeeds and converting that range back to a pair yields the original
pair unchanged. -/
theorem c10_reverse_round_trip {T : Type} [LinearOrder T] (first second : T)
    (h : first ≤ second) :
    Range.ofTuple (first, second) =
      Except.ok ({ Minimum := first, Maximum := second } : Range T) ∧
    Range.toTuple ({ Minimum := first, Maximum := second } : Range T) =
      (first, second) := by
  constructor
  · unfold Range.ofTuple
    rw [ofMinMax_spec, if_pos h]
  · rfl

/-- C10 witness at the concrete pair `(1, 5)`. -/
theorem c10_reverse_round_trip_witness :
    Range.ofTuple ((1 : Int), 5) =
      Except.ok ({ Minimum := 1, Maximum := 5 } : Range Int) ∧
    Range.toTuple ({ Minimum := 1, Maximum := 5 } : Range Int) = (1, 5) :=
  c10_reverse_round_trip 1 5 (by decide)

end PlatformRanges
